import Mathlib

/-!
Verification of the silica CHIP-8 assembler (src/src/assembler/*.rs) against its
natural-language specification.

The Rust pipeline is shallowly embedded:
* `Token`, `Expression` mirror `lexer.rs` / `parser.rs` data types.
* The nom 2.x parser combinators used by `lexer.rs` are modelled over `List Char`
  with three-way results (`done` / `fail` = nom `Error` / `more` = nom
  `Incomplete`), and Rust panics (from `unwrap` on integer-conversion results)
  are modelled as the `Except.error` channel, which propagates through every
  combinator exactly as a Rust panic unwinds through the parser.
* `parse` mirrors `parser.rs` (token-level nom combinators, including the custom
  `opt_complete!` macro).
* `check` mirrors `semantics.rs` (`Option String`: `none` = Ok, `some msg` =
  SemanticsError), with the possible index-out-of-bounds panic of `expr[0]` on
  the `Except.error` channel.
* `CodeGenerator` and its `process_*` functions mirror `codegenerator.rs`.
  `Vec` indexing is modelled with explicit bound checks (`Except.error` =
  panic), `as u8` casts as `% 256`, u8 shifts as `(x <<< 4) % 256`, u32
  addition as `% 2 ^ 32`, and the `HashMap` as an association list.  The
  second pass (`while !incomplete_queue.is_empty()`) is modelled with fuel;
  `GenOutcome.noTermination` means the loop ran out of fuel for every bound.
-/

set_option maxRecDepth 100000
set_option maxHeartbeats 1000000

namespace Silica

/-- Tokens of the Chip8 assembly file (`lexer.rs`, `enum Token`).
`NumericLiteral` carries the Rust `u32` as a `Nat` (< 2 ^ 32 by construction). -/
inductive Token where
  | Directive (name : String)
  | Label (name : String)
  | Instruction (name : String)
  | Register (name : String)
  | NumericLiteral (value : Nat)
  | LabelOperand (name : String)
  | Comma
deriving DecidableEq, Repr

/-- `Token::is_register` -/
def Token.is_register : Token → Bool
  | .Register _ => true
  | _ => false

/-- `Token::is_general_purpose_register`: a register whose name contains "V". -/
def Token.is_general_purpose_register : Token → Bool
  | .Register reg => reg.toList.contains 'V'
  | _ => false

/-- `Token::is_numeric_literal` -/
def Token.is_numeric_literal : Token → Bool
  | .NumericLiteral _ => true
  | _ => false

/-- `Token::is_label_operand` -/
def Token.is_label_operand : Token → Bool
  | .LabelOperand _ => true
  | _ => false

/-- `parser.rs`: `pub type Expression = Vec<Token>;` -/
abbrev Expression := List Token

/-! ### nom 2.x combinator model over byte (char) input -/

/-- nom `IResult` without the payload of `Error`/`Incomplete`:
`done rest val` = `Done`, `fail` = `Error`, `more` = `Incomplete`. -/
inductive IRes (α : Type) where
  | done (rest : List Char) (val : α)
  | fail
  | more
deriving DecidableEq, Repr

/-- A byte-level parser; the outer `Except.error` models a Rust panic. -/
abbrev ByteP (α : Type) := List Char → Except String (IRes α)

instance : Monad ByteP where
  pure a := fun input => .ok (.done input a)
  bind p f := fun input =>
    match p input with
    | .ok (.done rest v) => f v rest
    | .ok .fail => .ok .fail
    | .ok .more => .ok .more
    | .error m => .error m

/-- A parser that (models a branch that) panics unconditionally. -/
def pPanic {α : Type} (msg : String) : ByteP α := fun _ => .error msg

/-- nom `tag!`: `Incomplete` when the input is shorter than the tag. -/
def pTag (s : List Char) : ByteP (List Char) := fun input =>
  if input.length < s.length then .ok .more
  else if s.isPrefixOf input then .ok (.done (input.drop s.length) s)
  else .ok .fail

/-- nom character-class parsers (`alphanumeric`, `digit`, `hex_digit`) and
`take_while1_s!`: at least one matching byte, maximal munch. -/
def pCharClass1 (f : Char → Bool) : ByteP (List Char) := fun input =>
  match input with
  | [] => .ok .more
  | c :: _ =>
    if f c then .ok (.done (input.dropWhile f) (input.takeWhile f))
    else .ok .fail

/-- nom `not_line_ending`: everything until `\r` or `\n` (possibly empty). -/
def pNotLineEnding : ByteP (List Char) := fun input =>
  .ok (.done (input.dropWhile fun c => !(c == '\r' || c == '\n'))
             (input.takeWhile fun c => !(c == '\r' || c == '\n')))

/-- nom `alt!` of two parsers: `Error` tries the next branch, `Incomplete`
stops the chain, a panic propagates. -/
def pAlt {α : Type} (p q : ByteP α) : ByteP α := fun input =>
  match p input with
  | .ok .fail => q input
  | r => r

/-- nom `alt!` over a list of `tag!`s (used by `lex_registers`/`lex_directives`). -/
def pAltTags (tags : List (List Char)) : ByteP (List Char) := fun input =>
  match tags with
  | [] => .ok .fail
  | t :: rest =>
    match pTag t input with
    | .ok .fail => pAltTags rest input
    | r => r

/-- nom `alt_complete!` of two parsers: both `Error` and `Incomplete` try the
next branch; all branches failing is an `Error`; a panic propagates. -/
def pAltC {α : Type} (p q : ByteP α) : ByteP α := fun input =>
  match p input with
  | .ok (.done rest v) => .ok (.done rest v)
  | .error m => .error m
  | _ =>
    match q input with
    | .ok (.done rest v) => .ok (.done rest v)
    | .error m => .error m
    | _ => .ok .fail

/-- nom `alt_complete!` over a list of `tag!`s (used by `lex_mnem`,
`lex_line_ending`). -/
def pAltCTags (tags : List (List Char)) : ByteP (List Char) := fun input =>
  match tags with
  | [] => .ok .fail
  | t :: rest =>
    match pTag t input with
    | .ok (.done r v) => .ok (.done r v)
    | _ => pAltCTags rest input

/-- nom `opt!`: `Error` becomes `none` without consuming; `Incomplete`
propagates (nom 2.x streaming behaviour); a panic propagates. -/
def pOpt {α : Type} (p : ByteP α) : ByteP (Option α) := fun input =>
  match p input with
  | .ok (.done rest v) => .ok (.done rest (some v))
  | .ok .fail => .ok (.done input none)
  | .ok .more => .ok .more
  | .error m => .error m

/-- nom `many0!` loop body, with fuel bounded by the input length (every
iteration of the loop consumes at least one byte).  Mirrors nom 2.x:
empty input stops with `Done`; a child `Error` stops with `Done`; a child
`Incomplete` propagates; a child that consumes nothing is a `many0` `Error`. -/
def pMany0Go {α : Type} (p : ByteP α) : Nat → List Char →
    Except String (IRes (List α))
  | _, [] => .ok (.done [] [])
  | 0, input => .ok (.done input [])
  | fuel + 1, input =>
    match p input with
    | .error m => .error m
    | .ok .fail => .ok (.done input [])
    | .ok .more => .ok .more
    | .ok (.done rest v) =>
      if rest.length == input.length then .ok .fail
      else
        match pMany0Go p fuel rest with
        | .ok (.done r vs) => .ok (.done r (v :: vs))
        | other => other

/-- nom `many0!`. -/
def pMany0 {α : Type} (p : ByteP α) : ByteP (List α) := fun input =>
  pMany0Go p input.length input

/-! ### The lexer (`lexer.rs`) -/

/-- nom `alphanumeric` byte class. -/
def isAlphanumByte (c : Char) : Bool := c.isAlpha || c.isDigit

/-- nom `hex_digit` byte class. -/
def isHexDigitByte (c : Char) : Bool :=
  c.isDigit || ('A' ≤ c && c ≤ 'F') || ('a' ≤ c && c ≤ 'f')

/-- Value of one hex digit. -/
def hexDigitVal (c : Char) : Nat :=
  if c.toNat ≤ 57 then c.toNat - 48
  else if c.toNat ≤ 70 then c.toNat - 55
  else c.toNat - 87

/-- `u32::from_str_radix(s, 16)` on a non-empty all-hex-digit string:
only failure mode is overflow past `u32::MAX`. -/
def hexValue (s : List Char) : Nat :=
  s.foldl (fun acc c => acc * 16 + hexDigitVal c) 0

/-- `parse::<u32>` on a non-empty all-digit string: only failure is overflow. -/
def decimalValue (s : List Char) : Nat :=
  s.foldl (fun acc c => acc * 10 + (c.toNat - 48)) 0

/-- `lex_label`: an alphanumeric identifier. -/
def lex_label : ByteP Token := do
  let s ← pCharClass1 isAlphanumByte
  pure (Token.Label (String.mk s))

/-- `lex_hex_literal`: `$` then hex digits; the Rust code
`u32::from_str_radix(value, 16).unwrap()` panics on overflow. -/
def lex_hex_literal : ByteP Token := do
  let _ ← pTag ['$']
  let s ← pCharClass1 isHexDigitByte
  if hexValue s < 2 ^ 32 then pure (Token.NumericLiteral (hexValue s))
  else pPanic "number too large to fit in target type"

/-- `lex_decimal_literal`: digits; `value.parse::<u32>().unwrap()` panics on
overflow. -/
def lex_decimal_literal : ByteP Token := do
  let s ← pCharClass1 Char.isDigit
  if decimalValue s < 2 ^ 32 then pure (Token.NumericLiteral (decimalValue s))
  else pPanic "number too large to fit in target type"

/-- `lex_numeric_literal`: `alt!(lex_decimal_literal | lex_hex_literal)`. -/
def lex_numeric_literal : ByteP Token := pAlt lex_decimal_literal lex_hex_literal

/-- `lex_column_sep`: `take_while1_s!(is_space)` (spaces and tabs). -/
def lex_column_sep : ByteP (List Char) :=
  pCharClass1 (fun c => c == ' ' || c == '\t')

/-- `lex_comma` -/
def lex_comma : ByteP Token := do
  let _ ← pTag [',']
  pure Token.Comma

/-- `lex_registers`: `alt!` over exactly the tags in the source, in source
order (note: no `I`, `B` or `K` tag). -/
def lex_registers : ByteP Token := do
  let s ← pAltTags
    ["V0".toList, "V1".toList, "V2".toList, "V3".toList, "V4".toList,
     "V5".toList, "V6".toList, "V7".toList, "V8".toList, "V9".toList,
     "VA".toList, "VB".toList, "VC".toList, "VD".toList, "VE".toList,
     "VF".toList, "DT".toList, "ST".toList, "F".toList, "[I]".toList]
  pure (Token.Register (String.mk s))

/-- `lex_directives`: `alt!(tag!("org") | tag!("todo"))` — the source
recognizes `org` and `todo`, not `db`. -/
def lex_directives : ByteP Token := do
  let s ← pAltTags ["org".toList, "todo".toList]
  pure (Token.Directive (String.mk s))

/-- `lex_mnem`: `alt_complete!` over the 21 mnemonic tags in source order. -/
def lex_mnem : ByteP Token := do
  let s ← pAltCTags
    ["CLS".toList, "RET".toList, "SYS".toList, "JP".toList, "JR".toList,
     "CALL".toList, "SE".toList, "SNE".toList, "LD".toList, "ADD".toList,
     "SUBN".toList, "SUB".toList, "OR".toList, "AND".toList, "XOR".toList,
     "SHR".toList, "SHL".toList, "RND".toList, "DRW".toList, "SKP".toList,
     "SKNP".toList]
  pure (Token.Instruction (String.mk s))

/-- `lex_label_operand`: `#` then an identifier. -/
def lex_label_operand : ByteP Token := do
  let _ ← pTag ['#']
  let s ← pCharClass1 isAlphanumByte
  pure (Token.LabelOperand (String.mk s))

/-- `lex_instruction`: mnemonic, optional first operand
(register | numeric | label-operand), optional comma (kept in the token
stream), optional second operand (register | numeric). -/
def lex_instruction : ByteP (List Token) := do
  let mnem ← lex_mnem
  let _ ← pOpt lex_column_sep
  let operand1 ← pOpt (pAltC lex_registers (pAltC lex_numeric_literal lex_label_operand))
  let _ ← pOpt lex_column_sep
  let comma ← pOpt lex_comma
  let _ ← pOpt lex_column_sep
  let operand2 ← pOpt (pAltC lex_registers lex_numeric_literal)
  pure ([mnem] ++ operand1.toList ++ comma.toList ++ operand2.toList)

/-- `lex_comments`: `;` to end of line. -/
def lex_comments : ByteP (List Char) := do
  let _ ← pTag [';']
  pNotLineEnding

/-- `lex_line_ending`: `alt_complete!(tag!("\r\n") | tag!("\n"))`. -/
def lex_line_ending : ByteP (List Char) :=
  pAltCTags [['\r', '\n'], ['\n']]

/-- `lex_line_termination`: optional separator, optional comment, line ending. -/
def lex_line_termination : ByteP (List Char) := do
  let _ ← pOpt lex_column_sep
  let _ ← pOpt lex_comments
  lex_line_ending

/-- `lex_line1`: a bare line ending. -/
def lex_line1 : ByteP (List Token) := do
  let _ ← lex_line_ending
  pure []

/-- `lex_line2`: a line termination only. -/
def lex_line2 : ByteP (List Token) := do
  let _ ← lex_line_termination
  pure []

/-- `lex_line3`: separator, directive, separator, ONE numeric literal,
termination. -/
def lex_line3 : ByteP (List Token) := do
  let _ ← lex_column_sep
  let directive ← lex_directives
  let _ ← lex_column_sep
  let numeric ← lex_numeric_literal
  let _ ← lex_line_termination
  pure [directive, numeric]

/-- `lex_line4`: a label alone. -/
def lex_line4 : ByteP (List Token) := do
  let label ← lex_label
  let _ ← lex_line_termination
  pure [label]

/-- `lex_line5`: separator then an instruction. -/
def lex_line5 : ByteP (List Token) := do
  let _ ← lex_column_sep
  let instrs ← lex_instruction
  let _ ← lex_line_termination
  pure instrs

/-- `lex_line6`: label, separator, instruction. -/
def lex_line6 : ByteP (List Token) := do
  let label ← lex_label
  let _ ← lex_column_sep
  let instrs ← lex_instruction
  let _ ← lex_line_termination
  pure (label :: instrs)

/-- `lex_lines`: `many0!(alt_complete!(line1 | ... | line6))`, concatenated. -/
def lex_lines : ByteP (List Token) := do
  let line_tokens ← pMany0
    (pAltC lex_line1 (pAltC lex_line2 (pAltC lex_line3
      (pAltC lex_line4 (pAltC lex_line5 lex_line6)))))
  pure (line_tokens.foldl (fun acc ts => acc ++ ts) [])

/-- Outcome of `tokenize`: `Ok(tokens)`, a `LexerError`, or a Rust panic. -/
inductive LexOutcome where
  | ok (tokens : List Token)
  | lexError
  | panicked (msg : String)
deriving DecidableEq, Repr

/-- `tokenize` (`lexer.rs`): `Done` (with any remaining input ignored) is `Ok`;
`Error`/`Incomplete` are `LexerError`s; panics propagate. -/
def tokenize (input : List Char) : LexOutcome :=
  match lex_lines input with
  | .ok (.done _ tokens) => .ok tokens
  | .ok .fail => .lexError
  | .ok .more => .lexError
  | .error m => .panicked m

/-! ### The expression parser (`parser.rs`) -/

/-- nom `IResult` over token input (`parser.rs` has no panic sites). -/
inductive PRes (α : Type) where
  | done (rest : List Token) (val : α)
  | fail
  | more
deriving DecidableEq, Repr

/-- A token-level parser. -/
abbrev TokP (α : Type) := List Token → PRes α

instance : Monad TokP where
  pure a := fun input => .done input a
  bind p f := fun input =>
    match p input with
    | .done rest v => f v rest
    | .fail => .fail
    | .more => .more

/-- `tag_token!(Token::Label(_))`: `Incomplete(1)` on empty input. -/
def tagLabelTok : TokP Token := fun input =>
  match input with
  | [] => .more
  | t :: rest => match t with | .Label _ => .done rest t | _ => .fail

/-- `tag_token!(Token::Directive(_))` -/
def tagDirectiveTok : TokP Token := fun input =>
  match input with
  | [] => .more
  | t :: rest => match t with | .Directive _ => .done rest t | _ => .fail

/-- `tag_token!(Token::NumericLiteral(_))` -/
def tagNumericTok : TokP Token := fun input =>
  match input with
  | [] => .more
  | t :: rest => match t with | .NumericLiteral _ => .done rest t | _ => .fail

/-- `tag_token!(Token::Instruction(_))` -/
def tagInstructionTok : TokP Token := fun input =>
  match input with
  | [] => .more
  | t :: rest => match t with | .Instruction _ => .done rest t | _ => .fail

/-- `tag_token!(Token::Register(_))` -/
def tagRegisterTok : TokP Token := fun input =>
  match input with
  | [] => .more
  | t :: rest => match t with | .Register _ => .done rest t | _ => .fail

/-- `tag_token!(Token::LabelOperand(_))` -/
def tagLabelOperandTok : TokP Token := fun input =>
  match input with
  | [] => .more
  | t :: rest => match t with | .LabelOperand _ => .done rest t | _ => .fail

/-- `tag_token!(Token::Comma)` -/
def tagCommaTok : TokP Token := fun input =>
  match input with
  | [] => .more
  | t :: rest => match t with | .Comma => .done rest t | _ => .fail

/-- The custom `opt_complete!` macro of `parser.rs`: `Done` becomes `Some`,
anything else becomes `None` without consuming. -/
def toptC {α : Type} (p : TokP α) : TokP (Option α) := fun input =>
  match p input with
  | .done rest v => .done rest (some v)
  | _ => .done input none

/-- nom `alt_complete!` over token parsers. -/
def taltC {α : Type} (p q : TokP α) : TokP α := fun input =>
  match p input with
  | .done rest v => .done rest v
  | _ =>
    match q input with
    | .done rest v => .done rest v
    | _ => .fail

/-- nom `many0!` over token parsers (same nom 2.x semantics as `pMany0Go`). -/
def tMany0Go {α : Type} (p : TokP α) : Nat → List Token → PRes (List α)
  | _, [] => .done [] []
  | 0, input => .done input []
  | fuel + 1, input =>
    match p input with
    | .fail => .done input []
    | .more => .more
    | .done rest v =>
      if rest.length == input.length then .fail
      else
        match tMany0Go p fuel rest with
        | .done r vs => .done r (v :: vs)
        | other => other

/-- nom `many0!`. -/
def tMany0 {α : Type} (p : TokP α) : TokP (List α) := fun input =>
  tMany0Go p input.length input

/-- `parse_label` -/
def parse_label : TokP Expression := do
  let label ← tagLabelTok
  pure [label]

/-- `parse_directive`: a directive takes exactly ONE numeric literal. -/
def parse_directive : TokP Expression := do
  let directive ← tagDirectiveTok
  let num ← tagNumericTok
  pure [directive, num]

/-- `parse_instructions`: an instruction and AT MOST TWO operands; the comma is
consumed and dropped.  There is no third-operand rule (not even for `DRW`). -/
def parse_instructions : TokP Expression := do
  let instr ← tagInstructionTok
  let operand1 ← toptC (taltC tagRegisterTok (taltC tagNumericTok tagLabelOperandTok))
  let _ ← toptC tagCommaTok
  let operand2 ← toptC (taltC tagRegisterTok tagNumericTok)
  pure ([instr] ++ operand1.toList ++ operand2.toList)

/-- `parse_expressions`: `many0!(alt_complete!(directive | label | instructions))`. -/
def parse_expressions : TokP (List Expression) :=
  tMany0 (taltC parse_directive (taltC parse_label parse_instructions))

/-- `parse` (`parser.rs`): `Done` (remaining tokens ignored) is `Ok`,
anything else is a `ParserError` (`none`). -/
def parse (tokens : List Token) : Option (List Expression) :=
  match parse_expressions tokens with
  | .done _ exprs => some exprs
  | _ => none

/-! ### The semantic validator (`semantics.rs`) -/

/-- `check_instruction_semantics`: per-mnemonic arity/kind table.
`none` = Ok, `some msg` = `SemanticsError`.  Unknown mnemonics are accepted. -/
def check_instruction_semantics (instr : String) (e : Expression) : Option String :=
  match instr with
  | "CLS" => if e.length == 1 then none else some "CLS has no operands"
  | "RET" => if e.length == 1 then none else some "RET has no operands"
  | "JP" =>
    match e with
    | [_, t1] =>
      if t1.is_numeric_literal || t1.is_label_operand then none
      else some "Invalid operand for instruction JP"
    | _ => some "Invalid number of operands for JP expression"
  | "JR" =>
    match e with
    | [_, t1] =>
      if t1.is_numeric_literal || t1.is_label_operand then none
      else some "Invalid operand for instruction JR"
    | _ => some "Invalid number of operands for JR expression"
  | "CALL" =>
    match e with
    | [_, t1] =>
      if t1.is_numeric_literal || t1.is_label_operand then none
      else some "Invalid operand for instruction CALL"
    | _ => some "Invalid number of operands for CALL expression"
  | "SE" =>
    match e with
    | [_, t1, t2] =>
      if (t1.is_register && t2.is_numeric_literal) || (t1.is_register && t2.is_register)
      then none else some "Invalid operands for SE instruction"
    | _ => some "Invalid number of operands for SE expression"
  | "SNE" =>
    match e with
    | [_, t1, t2] =>
      if (t1.is_register && t2.is_numeric_literal) || (t1.is_register && t2.is_register)
      then none else some "Invalid operands for SNE instruction"
    | _ => some "Invalid number of operands for SNE expression"
  | "LD" =>
    match e with
    | [_, t1, t2] =>
      if (t1.is_register && t2.is_numeric_literal) || (t1.is_register && t2.is_register)
      then none else some "Invalid operands for LD instruction"
    | _ => some "Invalid number of operands for LD expression"
  | "OR" =>
    match e with
    | [_, t1, t2] =>
      if t1.is_register && t2.is_register then none
      else some "Invalid operands for OR instruction"
    | _ => some "Invalid number of operands for OR expression"
  | "AND" =>
    match e with
    | [_, t1, t2] =>
      if t1.is_register && t2.is_register then none
      else some "Invalid operands for AND instruction"
    | _ => some "Invalid number of operands for AND expression"
  | "XOR" =>
    match e with
    | [_, t1, t2] =>
      if t1.is_register && t2.is_register then none
      else some "Invalid operands for XOR instruction"
    | _ => some "Invalid number of operands for XOR expression"
  | "ADD" =>
    match e with
    | [_, t1, t2] =>
      if (t1.is_register && t2.is_register) || (t1.is_register && t2.is_numeric_literal)
      then none else some "Invalid operands for ADD instruction"
    | _ => some "Invalid number of operands for ADD expression"
  | "SUB" =>
    match e with
    | [_, t1, t2] =>
      if t1.is_register && t2.is_register then none
      else some "Invalid operands for SUB instruction"
    | _ => some "Invalid number of operands for SUB expression"
  | "SUBN" =>
    match e with
    | [_, t1, t2] =>
      if t1.is_register && t2.is_register then none
      else some "Invalid operands for SUBN instruction"
    | _ => some "Invalid number of operands for SUBN expression"
  | "SHL" =>
    match e with
    | [_, t1, t2] =>
      if t1.is_register && t2.is_register then none
      else some "Invalid operands for SHL instruction"
    | _ => some "Invalid number of operands for SHL expression"
  | "SHR" =>
    match e with
    | [_, t1, t2] =>
      if t1.is_register && t2.is_register then none
      else some "Invalid operands for SHR instruction"
    | _ => some "Invalid number of operands for SHR expression"
  | "RND" =>
    match e with
    | [_, t1, t2] =>
      if t1.is_register && t2.is_numeric_literal then none
      else some "Invalid operands for RND instruction"
    | _ => some "Invalid number of operands for RND expression"
  | "DRW" =>
    match e with
    | [_, t1, t2, t3] =>
      if t1.is_register && t2.is_register && t3.is_numeric_literal then none
      else some "Invalid operands for DRW instruction"
    | _ => some "Invalid number of operands for DRW expression"
  | "SKP" =>
    match e with
    | [_, t1] =>
      if t1.is_register then none else some "Invalid operands for SKP instruction"
    | _ => some "Invalid number of operands for SKP expression"
  | "SKNP" =>
    match e with
    | [_, t1] =>
      if t1.is_register then none else some "Invalid operands for SKNP instruction"
    | _ => some "Invalid number of operands for SKNP expression"
  | _ => none

/-- `check` (`semantics.rs`): dispatch on `expr[0]` (indexing an empty
expression is a Rust panic, the `Except.error` channel).  A directive must be
exactly `[Directive, NumericLiteral]`. -/
def check (e : Expression) : Except String (Option String) :=
  match e with
  | [] => .error "index out of bounds"
  | t0 :: _ =>
    match t0 with
    | .Label _ => .ok none
    | .Directive _ =>
      match e with
      | [_, .NumericLiteral _] => .ok none
      | [_, _] => .ok (some "Invalid token in directive expression")
      | _ => .ok (some "Invalid number of tokens for directive expression")
    | .Instruction instr => .ok (check_instruction_semantics instr e)
    | _ => .ok (some "Invalid start of expression")

/-! ### The code generator (`codegenerator.rs`) -/

/-- `struct CodeGenerator`: address counter and largest-address watermark are
`u32` (kept as `Nat`, incremented mod `2 ^ 32`), `labels` is the `HashMap`
(as an association list; keys are unique because insertion is guarded),
`opcodes` is the 4096-byte buffer, `incomplete_queue` the deferred
`(address, expression)` pairs. -/
structure CodeGenerator where
  address_counter : Nat
  labels : List (String × Nat)
  opcodes : List Nat
  incomplete_queue : List (Nat × Expression)
  largest_address : Nat
deriving DecidableEq, Repr

/-- `CodeGenerator::new()` -/
def CodeGenerator.new : CodeGenerator :=
  ⟨0, [], List.replicate 4096 0, [], 0⟩

/-- `HashMap::get` / indexing on the label table. -/
def lookupKey (m : List (String × Nat)) (k : String) : Option Nat :=
  match m with
  | [] => none
  | (k', v) :: rest => if k' == k then some v else lookupKey rest k

/-- `Vec` write with the Rust bound check: out-of-bounds indexing panics.
The opcode buffer is created as `vec![0; 4096]` and never resized before the
final drain, so its length is the constant 4096 at every write. -/
def setByte (ops : List Nat) (i v : Nat) : Except String (List Nat) :=
  if i < 4096 then .ok (ops.set i v) else .error "index out of bounds"

/-- `expr[i]` on a `Vec<Token>`: out-of-bounds indexing panics. -/
def exprGet (e : Expression) (i : Nat) : Except String Token :=
  match e.get? i with
  | some t => .ok t
  | none => .error "index out of bounds"

/-- `increment_address_counter`: u32 addition, then update the high-water
mark if the counter moved past it. -/
def increment_address_counter (i : Nat) (st : CodeGenerator) : CodeGenerator :=
  let c := (st.address_counter + i) % 2 ^ 32
  { st with
    address_counter := c,
    largest_address := if st.largest_address < c then c else st.largest_address }

/-- `register_name_to_u8`: `name[1..].parse::<u8>().unwrap()` — a DECIMAL
parse of everything after the first byte; any non-decimal-digit (e.g. the
`A` of `VA`) or overflow makes `unwrap` panic. -/
def register_name_to_u8 (name : String) : Except String Nat :=
  let s := name.toList.drop 1
  if s.isEmpty then .error "cannot parse integer from empty string"
  else if s.all Char.isDigit then
    if decimalValue s < 256 then .ok (decimalValue s)
    else .error "number too large to fit in target type"
  else .error "invalid digit found in string"

/-- `append_opcode`: big-endian write of two bytes at the address counter,
then advance by 2. -/
def append_opcode (msb lsb : Nat) (st : CodeGenerator) :
    Except String CodeGenerator := do
  let o1 ← setByte st.opcodes st.address_counter msb
  let o2 ← setByte o1 ((st.address_counter + 1) % 2 ^ 32) lsb
  pure (increment_address_counter 2 { st with opcodes := o2 })

/-- `queue_incomplete_instruction`: record `(address, expr)` and advance the
counter by 2, reserving the slot. -/
def queue_incomplete_instruction (e : Expression) (st : CodeGenerator) :
    CodeGenerator :=
  increment_address_counter 2
    { st with incomplete_queue := st.incomplete_queue ++ [(st.address_counter, e)] }

/-- Loop body of the `db` arm of `process_directive`: write each numeric
operand as one byte (`n as u8`), advancing by 1 each. -/
def dbLoop : List Token → CodeGenerator → Except String CodeGenerator
  | [], st => .ok st
  | t :: rest, st =>
    match t with
    | .NumericLiteral n => do
      let ops ← setByte st.opcodes st.address_counter (n % 256)
      dbLoop rest (increment_address_counter 1 { st with opcodes := ops })
    | _ => dbLoop rest st

/-- `process_directive`: `org` sets the address counter (WITHOUT touching the
high-water mark); `db` writes its bytes; other directives do nothing. -/
def process_directive (e : Expression) (st : CodeGenerator) :
    Except String CodeGenerator :=
  match e with
  | .Directive d :: _ =>
    if d == "org" then
      match exprGet e 1 with
      | .error m => .error m
      | .ok (.NumericLiteral address) => .ok { st with address_counter := address }
      | .ok _ => .ok st
    else if d == "db" then dbLoop (e.drop 1) st
    else .ok st
  | _ => .ok st

/-- `process_label`: first occurrence inserts `name ↦ address counter`;
a second occurrence hits `panic!("The label: {} has already been used", ...)`. -/
def process_label (e : Expression) (st : CodeGenerator) :
    Except String CodeGenerator :=
  match e with
  | .Label label :: _ =>
    if !(lookupKey st.labels label).isSome then
      .ok { st with labels := (label, st.address_counter) :: st.labels }
    else .error ("The label: " ++ label ++ " has already been used")
  | _ => .ok st

/-- `process_jump_instruction` (JP = 0x10, JR = 0xB0, CALL = 0x20): a numeric
operand is encoded immediately; a label operand is encoded if the label is
known, otherwise queued as incomplete. -/
def process_jump_instruction (first : Nat) (e : Expression) (st : CodeGenerator) :
    Except String CodeGenerator := do
  let t1 ← exprGet e 1
  let st1 ←
    match t1 with
    | .NumericLiteral nnn =>
      append_opcode (first ||| (((nnn &&& 0xF00) >>> 8) % 256)) ((nnn &&& 0x0FF) % 256) st
    | _ => pure st
  match t1 with
  | .LabelOperand label =>
    match lookupKey st1.labels label with
    | some address =>
      append_opcode (first ||| (((address &&& 0xF00) >>> 8) % 256))
        ((address &&& 0xFF) % 256) st1
    | none => pure (queue_incomplete_instruction e st1)
  | _ => pure st1

/-- `process_se_instruction` (SE: 0x30/0x50, SNE: 0x40/0x90).  NOTE: the
register/register arm reads `expr[3]`, not `expr[2]` — on a validated
three-element expression that indexing panics. -/
def process_se_instruction (first second : Nat) (e : Expression)
    (st : CodeGenerator) : Except String CodeGenerator := do
  let t1 ← exprGet e 1
  match t1 with
  | .Register reg => do
    let reg_num ← register_name_to_u8 reg
    let t2 ← exprGet e 2
    match t2 with
    | .NumericLiteral kk => append_opcode (first ||| reg_num) (kk % 256) st
    | _ => do
      let t3 ← exprGet e 3
      match t3 with
      | .Register reg2 => do
        let operand_reg_num ← register_name_to_u8 reg2
        append_opcode (second ||| reg_num) ((operand_reg_num <<< 4) % 256) st
      | _ => pure st
  | _ => pure st

/-- `process_logical_instruction` (OR/AND/XOR): `8xyN`. -/
def process_logical_instruction (first : Nat) (e : Expression)
    (st : CodeGenerator) : Except String CodeGenerator := do
  let t1 ← exprGet e 1
  match t1 with
  | .Register regx => do
    let regx_num ← register_name_to_u8 regx
    let t2 ← exprGet e 2
    match t2 with
    | .Register regy => do
      let regy_num ← register_name_to_u8 regy
      append_opcode (0x80 ||| regx_num) (((regy_num <<< 4) % 256) ||| first) st
    | _ => pure st
  | _ => pure st

/-- `process_add_instruction`: `8xy4` / `7xkk` for a general-purpose first
operand, `Fx1E` otherwise. -/
def process_add_instruction (e : Expression) (st : CodeGenerator) :
    Except String CodeGenerator := do
  let t1 ← exprGet e 1
  if t1.is_general_purpose_register then
    match t1 with
    | .Register reg => do
      let reg1_num ← register_name_to_u8 reg
      let t2 ← exprGet e 2
      match t2 with
      | .Register reg2 => do
        let reg2_num ← register_name_to_u8 reg2
        append_opcode (0x80 ||| reg1_num) (((reg2_num <<< 4) % 256) ||| 0x04) st
      | .NumericLiteral kk => append_opcode (0x70 ||| reg1_num) (kk % 256) st
      | _ => pure st
    | _ => pure st
  else do
    let t2 ← exprGet e 2
    match t2 with
    | .Register reg => do
      let reg_num ← register_name_to_u8 reg
      append_opcode (0xF0 ||| reg_num) 0x1E st
    | _ => pure st

/-- `process_sub_instruction` (SUB: 0x05, SHR: 0x06, SUBN: 0x07, SHL: 0x0E). -/
def process_sub_instruction (e : Expression) (last : Nat) (st : CodeGenerator) :
    Except String CodeGenerator := do
  let t1 ← exprGet e 1
  match t1 with
  | .Register reg1 => do
    let t2 ← exprGet e 2
    match t2 with
    | .Register reg2 => do
      let reg1_num ← register_name_to_u8 reg1
      let reg2_num ← register_name_to_u8 reg2
      append_opcode (0x80 ||| reg1_num) (last ||| ((reg2_num <<< 4) % 256)) st
    | _ => pure st
  | _ => pure st

/-- `process_skip_instruction` (SKP: 0x9E, SKNP: 0xA1). -/
def process_skip_instruction (e : Expression) (last : Nat) (st : CodeGenerator) :
    Except String CodeGenerator := do
  let t1 ← exprGet e 1
  match t1 with
  | .Register reg => do
    let num ← register_name_to_u8 reg
    append_opcode (0xE0 ||| num) last st
  | _ => pure st

/-- `process_rnd_instruction`: `Cxkk`. -/
def process_rnd_instruction (e : Expression) (st : CodeGenerator) :
    Except String CodeGenerator := do
  let t1 ← exprGet e 1
  match t1 with
  | .Register reg => do
    let t2 ← exprGet e 2
    match t2 with
    | .NumericLiteral n => do
      let reg_num ← register_name_to_u8 reg
      append_opcode (0xC0 ||| reg_num) (n % 256) st
    | _ => pure st
  | _ => pure st

/-- `process_draw_instruction`: `Dxyn`. -/
def process_draw_instruction (e : Expression) (st : CodeGenerator) :
    Except String CodeGenerator := do
  let t1 ← exprGet e 1
  match t1 with
  | .Register reg1 => do
    let t2 ← exprGet e 2
    match t2 with
    | .Register reg2 => do
      let t3 ← exprGet e 3
      match t3 with
      | .NumericLiteral n => do
        let reg1_num ← register_name_to_u8 reg1
        let reg2_num ← register_name_to_u8 reg2
        append_opcode (0xD0 ||| reg1_num) (((reg2_num <<< 4) % 256) ||| (n % 256)) st
      | _ => pure st
    | _ => pure st
  | _ => pure st

/-- `process_load_instruction`: the eleven `LD` forms, dispatched on operand
shape; unsupported shapes hit `panic!("Invalid operand...")`. -/
def process_load_instruction (e : Expression) (st : CodeGenerator) :
    Except String CodeGenerator := do
  let t1 ← exprGet e 1
  match t1 with
  | .Register reg1 =>
    if t1.is_general_purpose_register then do
      let reg1_num ← register_name_to_u8 reg1
      let t2 ← exprGet e 2
      match t2 with
      | .NumericLiteral kk => append_opcode (0x60 ||| reg1_num) (kk % 256) st
      | .Register reg2 =>
        if t2.is_general_purpose_register then do
          let reg2_num ← register_name_to_u8 reg2
          append_opcode (0x80 ||| reg1_num) ((reg2_num <<< 4) % 256) st
        else
          match reg2 with
          | "DT" => append_opcode (0xF0 ||| reg1_num) 0x07 st
          | "K" => append_opcode (0xF0 ||| reg1_num) 0x0A st
          | "[I]" => append_opcode (0xF0 ||| reg1_num) 0x65 st
          | _ => throw "Invalid operand"
      | _ => pure st
    else do
      let t2 ← exprGet e 2
      match t2 with
      | .Register reg2 => do
        let reg2_num ← register_name_to_u8 reg2
        match reg1 with
        | "DT" => append_opcode (0xF0 ||| reg2_num) 0x15 st
        | "ST" => append_opcode (0xF0 ||| reg2_num) 0x18 st
        | "F" => append_opcode (0xF0 ||| reg2_num) 0x29 st
        | "B" => append_opcode (0xF0 ||| reg2_num) 0x33 st
        | "[I]" => append_opcode (0xF0 ||| reg2_num) 0x55 st
        | _ => throw "Invalid operand for instruction LD"
      | .NumericLiteral nnn =>
        match reg1 with
        | "I" => append_opcode (0xA0 ||| ((nnn >>> 8) % 256)) ((nnn &&& 0xFF) % 256) st
        | _ => throw "Invalid operand for instruction LD"
      | .LabelOperand label =>
        match reg1 with
        | "I" =>
          match lookupKey st.labels label with
          | some address =>
            append_opcode (0xA0 ||| ((address >>> 8) % 256)) ((address &&& 0xFF) % 256) st
          | none => pure (queue_incomplete_instruction e st)
        | _ => throw "Invalid operand for instruction LD"
      | _ => pure st
  | _ => pure st

/-- `process_instruction`: mnemonic dispatch table (unknown mnemonics,
including `SYS`, do nothing). -/
def process_instruction (e : Expression) (st : CodeGenerator) :
    Except String CodeGenerator :=
  match e with
  | .Instruction instr :: _ =>
    match instr with
    | "CLS" => append_opcode 0x00 0xE0 st
    | "RET" => append_opcode 0x00 0xEE st
    | "JP" => process_jump_instruction 0x10 e st
    | "JR" => process_jump_instruction 0xB0 e st
    | "CALL" => process_jump_instruction 0x20 e st
    | "SE" => process_se_instruction 0x30 0x50 e st
    | "SNE" => process_se_instruction 0x40 0x90 e st
    | "OR" => process_logical_instruction 0x01 e st
    | "AND" => process_logical_instruction 0x02 e st
    | "XOR" => process_logical_instruction 0x03 e st
    | "ADD" => process_add_instruction e st
    | "SUB" => process_sub_instruction e 0x05 st
    | "SHR" => process_sub_instruction e 0x06 st
    | "SUBN" => process_sub_instruction e 0x07 st
    | "SHL" => process_sub_instruction e 0x0E st
    | "SKP" => process_skip_instruction e 0x9E st
    | "SKNP" => process_skip_instruction e 0xA1 st
    | "RND" => process_rnd_instruction e st
    | "DRW" => process_draw_instruction e st
    | "LD" => process_load_instruction e st
    | _ => .ok st
  | _ => .ok st

/-- `process_expression`: `semantics::check(expr).unwrap()` (a semantic error
is a panic here), then dispatch on `expr[0]`. -/
def process_expression (e : Expression) (st : CodeGenerator) :
    Except String CodeGenerator := do
  let chk ← check e
  match chk with
  | some msg => throw msg
  | none =>
    match e with
    | [] => throw "index out of bounds"
    | t0 :: _ =>
      match t0 with
      | .Directive _ => process_directive e st
      | .Label _ => process_label e st
      | .Instruction _ => process_instruction e st
      | _ => throw "Invalid token for start of expression"

/-- Pass 1 of `generate`: process every expression in order. -/
def pass1 : List Expression → CodeGenerator → Except String CodeGenerator
  | [], st => .ok st
  | e :: rest, st =>
    match process_expression e st with
    | .error m => .error m
    | .ok st' => pass1 rest st'

/-- Pass 2 of `generate`: `while !incomplete_queue.is_empty()` — pop the front,
restore the address counter to the recorded slot, re-process.  The loop has no
termination guarantee in the source, so it is modelled with fuel: `ok none`
means the fuel bound was exhausted with the queue still non-empty. -/
def pass2 (fuel : Nat) (st : CodeGenerator) :
    Except String (Option CodeGenerator) :=
  match st.incomplete_queue with
  | [] => .ok (some st)
  | (addr, e) :: rest =>
    match fuel with
    | 0 => .ok none
    | n + 1 =>
      match process_expression e
          { st with incomplete_queue := rest, address_counter := addr } with
      | .error m => .error m
      | .ok st1 => pass2 n st1

/-- Outcome of `CodeGenerator::generate`: the returned byte vector, a Rust
panic, or failure of the second-pass loop to terminate within any fuel. -/
inductive GenOutcome where
  | ok (bytes : List Nat)
  | panicked (msg : String)
  | noTermination
deriving DecidableEq, Repr

/-- The tail of `generate` after pass 2: on a completed state, apply
`reduce_memory_size` (keep the bytes below the high-water mark) and the 0x200
trim (drop the first 0x200 bytes iff at least 0x200 bytes remain). -/
def afterPass2 : Except String (Option CodeGenerator) → GenOutcome
  | .error m => .panicked m
  | .ok none => .noTermination
  | .ok (some st') =>
    let reduced_mem := st'.opcodes.take st'.largest_address
    if reduced_mem.length < 0x200 then .ok reduced_mem
    else .ok (reduced_mem.drop 0x200)

/-- `CodeGenerator::generate`: pass 1, pass 2, reduce and trim. -/
def CodeGenerator.generate (fuel : Nat) (exprs : List Expression) : GenOutcome :=
  match pass1 exprs CodeGenerator.new with
  | .error m => .panicked m
  | .ok st => afterPass2 (pass2 fuel st)

/-! ### The pipeline driver (`mod.rs`) -/

/-- Outcome of `assemble`: `Ok(bytes)` or a Rust panic (every stage error is
`unwrap`ed in `mod.rs`). -/
inductive AsmOutcome where
  | ok (bytes : List Nat)
  | panicked (msg : String)
deriving DecidableEq, Repr

/-- The per-expression loop of `assemble`: `semantics::check(expr).unwrap()`
then `codegen.add(expr)`.  `CodeGenerator` has NO method `add` (the crate does
not compile as committed); the call is modelled as a no-op, which is the only
reading under which the function means anything at all.  After the loop the
function returns `Ok(vec![])` — the generated image is never produced. -/
def assembleLoop : List Expression → AsmOutcome
  | [] => .ok []
  | e :: rest =>
    match check e with
    | .error m => .panicked m
    | .ok (some msg) => .panicked msg
    | .ok none => assembleLoop rest

/-- `assemble` (`mod.rs`): `tokenize(...).unwrap()`, `parse(...).unwrap()`,
validate each expression, then return `Ok(vec![])`.  It never calls
`CodeGenerator::generate`. -/
def assemble (input : List Char) : AsmOutcome :=
  match tokenize input with
  | .panicked m => .panicked m
  | .lexError => .panicked "called unwrap on a LexerError"
  | .ok tokens =>
    match parse tokens with
    | none => .panicked "called unwrap on a ParserError"
    | some exprs => assembleLoop exprs

/-! ### Claim theorems -/

/-- C1.  The claim says the top-level `assemble` returns Ok with the trimmed
generated image (non-empty for `  org $200` / `  CLS`).  In the source,
`assemble` never calls `CodeGenerator::generate`: it validates the
expressions, calls a method `CodeGenerator::add` that does not exist, and
returns `Ok(vec![])`.  For the example input the pipeline stages do produce
the image `[0x00, 0xE0]` via `generate`, but `assemble` returns the empty
vector. -/
theorem c1_assemble_never_emits_image :
    tokenize ("  org $200\n  CLS\n".toList) =
      LexOutcome.ok [Token.Directive "org", Token.NumericLiteral 512,
        Token.Instruction "CLS"] ∧
    parse [Token.Directive "org", Token.NumericLiteral 512, Token.Instruction "CLS"] =
      some [[Token.Directive "org", Token.NumericLiteral 512],
        [Token.Instruction "CLS"]] ∧
    CodeGenerator.generate 1 [[Token.Directive "org", Token.NumericLiteral 512],
      [Token.Instruction "CLS"]] = GenOutcome.ok [0x00, 0xE0] ∧
    assemble ("  org $200\n  CLS\n".toList) = AsmOutcome.ok [] :=
  ⟨rfl, rfl, rfl, rfl⟩

/-- The jump expression whose label is never defined (claim C2). -/
def c2Expr : Expression := [Token.Instruction "JP", Token.LabelOperand "missing"]

/-- The generator state after pass 1 on `[c2Expr]`: the instruction sits in
the incomplete queue at its reserved slot 0 and the label table is empty. -/
def c2State : CodeGenerator :=
  ⟨2, [], List.replicate 4096 0, [(0, c2Expr)], 2⟩

/-- Pass 2 re-queues the unresolvable instruction forever: `c2State` is a
fixpoint of the loop body, so every fuel bound is exhausted. -/
theorem c2_pass2_stuck (n : Nat) : pass2 n c2State = Except.ok none := by
  induction n with
  | zero => rfl
  | succ k ih =>
    have h : pass2 (k + 1) c2State = pass2 k c2State := rfl
    rw [h, ih]

/-- C2.  The claim says generation of a program whose jump references a label
that is never defined terminates with an `UndefinedLabel` error.  The source
has no `UndefinedLabel` error at all: the second-pass `while` loop pops the
deferred instruction, finds the label still unknown, and pushes it back,
forever.  For every fuel bound the loop is still running, i.e. `generate`
diverges on this input. -/
theorem c2_undefined_label_no_termination (fuel : Nat) :
    CodeGenerator.generate fuel [c2Expr] = GenOutcome.noTermination := by
  have h1 : CodeGenerator.generate fuel [c2Expr] = afterPass2 (pass2 fuel c2State) :=
    rfl
  rw [h1, c2_pass2_stuck fuel]
  exact rfl

/-- C3.  The claim says `SE Vx, Vy` / `SNE Vx, Vy` encode `5xy0` / `9xy0`
without any out-of-range access on the three-element expression.  The
register/register arm of `process_se_instruction` reads `expr[3]`, which is
out of bounds for the validated `[SE, Vx, Vy]` expression, so generation
panics instead of emitting the opcode. -/
theorem c3_se_sne_rr_out_of_bounds :
    check [Token.Instruction "SE", Token.Register "V0", Token.Register "V1"] =
      Except.ok none ∧
    CodeGenerator.generate 1 [[Token.Instruction "SE", Token.Register "V0",
      Token.Register "V1"]] = GenOutcome.panicked "index out of bounds" ∧
    CodeGenerator.generate 1 [[Token.Instruction "SNE", Token.Register "V0",
      Token.Register "V1"]] = GenOutcome.panicked "index out of bounds" :=
  ⟨rfl, rfl, rfl⟩

/-- C4.  The claim says the lexer recognizes the directives `org` and `db`,
and a `db` line with one or more numerics lexes/parses accordingly.  The
lexer's directive tags are `org` and `todo`; a `  db $01` line matches no
line rule, so it contributes no tokens at all; the parser consumes exactly
ONE numeric after a directive (silently leaving the rest); the validator even
rejects any directive expression with more than one numeric — yet the code
generator does implement multi-byte `db`. -/
theorem c4_db_directive_unrecognized :
    tokenize ("  db $01\n".toList) = LexOutcome.ok [] ∧
    lex_directives ("db $01\n".toList) = Except.ok IRes.fail ∧
    parse [Token.Directive "db", Token.NumericLiteral 1, Token.NumericLiteral 2] =
      some [[Token.Directive "db", Token.NumericLiteral 1]] ∧
    check [Token.Directive "db", Token.NumericLiteral 1, Token.NumericLiteral 2] =
      Except.ok (some "Invalid number of tokens for directive expression") ∧
    CodeGenerator.generate 1 [[Token.Directive "db", Token.NumericLiteral 171]] =
      GenOutcome.ok [171] :=
  ⟨rfl, rfl, rfl, rfl, rfl⟩

/-- C5.  The claim says the parser accepts a third operand for `DRW`,
producing a four-element expression.  `parse_instructions` has no
third-operand rule: on `DRW V0, V1, $F` tokens it produces the three-element
`[DRW, V0, V1]` (dropping `, $F` unconsumed), which the validator then
rejects — even though the validator and the code generator both support the
four-element form.  On the source text, the whole line already fails to lex. -/
theorem c5_drw_third_operand_dropped :
    tokenize ("  DRW V0, V1, $F\n".toList) = LexOutcome.ok [] ∧
    parse [Token.Instruction "DRW", Token.Register "V0", Token.Comma,
      Token.Register "V1", Token.Comma, Token.NumericLiteral 15] =
      some [[Token.Instruction "DRW", Token.Register "V0", Token.Register "V1"]] ∧
    check [Token.Instruction "DRW", Token.Register "V0", Token.Register "V1"] =
      Except.ok (some "Invalid number of operands for DRW expression") ∧
    check [Token.Instruction "DRW", Token.Register "V0", Token.Register "V1",
      Token.NumericLiteral 15] = Except.ok none ∧
    CodeGenerator.generate 1 [[Token.Instruction "DRW", Token.Register "V0",
      Token.Register "V1", Token.NumericLiteral 15]] = GenOutcome.ok [0xD0, 0x1F] :=
  ⟨rfl, rfl, rfl, rfl, rfl⟩

/-- C6.  The claim says every register name of the spec's keyword set —
including `I`, `B` and `K` — lexes to a `Register` token, e.g.
`  LD I, $2FF`.  The lexer's register alternation has no `I`, `B` or `K`
tag, so those operands do not lex (the whole line yields no tokens) — even
though the code generator fully supports `Register("I")` tokens
(`LD I, nnn` ↦ `Annn`). -/
theorem c6_register_keywords_missing :
    tokenize ("  LD I, $2FF\n".toList) = LexOutcome.ok [] ∧
    lex_registers ("I, $2FF\n".toList) = Except.ok IRes.fail ∧
    lex_registers ("B, V0\n".toList) = Except.ok IRes.fail ∧
    lex_registers ("K, V0\n".toList) = Except.ok IRes.fail ∧
    CodeGenerator.generate 1 [[Token.Instruction "LD", Token.Register "I",
      Token.NumericLiteral 0x2FF]] = GenOutcome.ok [0xA2, 0xFF] :=
  ⟨rfl, rfl, rfl, rfl, rfl⟩

/-- C7.  The claim says the register index of `Vx` is the value of the hex
digit after `V`, so `VA`..`VF` encode as 10..15.  `register_name_to_u8`
parses the suffix as DECIMAL (`parse::<u8>().unwrap()`), so `VA` makes the
unwrap panic; only `V0`..`V9` encode. -/
theorem c7_register_index_decimal_not_hex :
    register_name_to_u8 "VA" = Except.error "invalid digit found in string" ∧
    CodeGenerator.generate 1 [[Token.Instruction "LD", Token.Register "VA",
      Token.NumericLiteral 0]] = GenOutcome.panicked "invalid digit found in string" ∧
    register_name_to_u8 "V9" = Except.ok 9 ∧
    CodeGenerator.generate 1 [[Token.Instruction "LD", Token.Register "V9",
      Token.NumericLiteral 0x12]] = GenOutcome.ok [0x69, 0x12] :=
  ⟨rfl, rfl, rfl, rfl⟩

/-- C8 counterexample.  The claim says a duplicate label makes code
generation fail with a `DuplicateLabel` ERROR RESULT, not an uncontrolled
abort.  On `[[Label "a"], [Label "a"]]` the source hits
`panic!("The label: {} has already been used", ...)` — `generate` returns
`Vec<u8>`, has no error channel, and aborts. -/
theorem c8_duplicate_label_aborts :
    CodeGenerator.generate 1 [[Token.Label "a"], [Token.Label "a"]] =
      GenOutcome.panicked ("The label: " ++ "a" ++ " has already been used") :=
  rfl

/-- C8 (amended).  Processing a label whose name is not yet in the symbol
table inserts `name ↦ current address counter`; processing a label whose
name is already present aborts with the duplicate-label panic (an
uncontrolled abort, not an error result). -/
theorem c8_label_handling (st : CodeGenerator) (l : String) :
    ((lookupKey st.labels l).isSome = false →
      process_label [Token.Label l] st =
        .ok { st with labels := (l, st.address_counter) :: st.labels }) ∧
    ((lookupKey st.labels l).isSome = true →
      process_label [Token.Label l] st =
        .error ("The label: " ++ l ++ " has already been used")) := by
  constructor <;> intro h <;> simp [process_label, h]

/-- A generator state that already binds label `a` (for the C8 witness). -/
def c8State : CodeGenerator := ⟨0, [("a", 0)], List.replicate 4096 0, [], 0⟩

/-- Witness for `c8_label_handling` at concrete states. -/
theorem c8_label_handling_witness :
    process_label [Token.Label "a"] CodeGenerator.new =
      .ok { CodeGenerator.new with
        labels := [("a", CodeGenerator.new.address_counter)] } ∧
    process_label [Token.Label "a"] c8State =
      .error ("The label: " ++ "a" ++ " has already been used") :=
  ⟨(c8_label_handling CodeGenerator.new "a").1 rfl,
   (c8_label_handling c8State "a").2 rfl⟩

/-- C9 counterexample.  The claim says a program with a forward label
reference assembles to the same bytes as the program with the `Label`
expression moved before the use.  Moving the label changes the address at
which it is defined: `[JP #l; l:]` resolves `l` to 2 and emits `10 02`,
while `[l:; JP #l]` resolves `l` to 0 and emits `10 00`. -/
theorem c9_label_position_counterexample :
    CodeGenerator.generate 2 [[Token.Instruction "JP", Token.LabelOperand "l"],
      [Token.Label "l"]] = GenOutcome.ok [0x10, 0x02] ∧
    CodeGenerator.generate 2 [[Token.Label "l"],
      [Token.Instruction "JP", Token.LabelOperand "l"]] = GenOutcome.ok [0x10, 0x00] ∧
    GenOutcome.ok ([0x10, 0x02] : List Nat) ≠ GenOutcome.ok [0x10, 0x00] :=
  ⟨rfl, rfl, by decide⟩

/-- C9 (amended).  A jump-family instruction whose label operand is not yet
in the symbol table is queued as incomplete at its reserved two-byte slot
(counter advanced by 2); once the table binds the label to address `A`,
re-processing that instruction emits exactly the bytes of a direct jump to
`A` — so the deferred second-pass re-emission writes the same opcode a
backward reference to the same address would have written. -/
theorem c9_forward_reference_resolution (first : Nat) (st : CodeGenerator)
    (m l : String) (A : Nat) :
    (lookupKey st.labels l = none →
      process_jump_instruction first [Token.Instruction m, Token.LabelOperand l] st =
        .ok (queue_incomplete_instruction
          [Token.Instruction m, Token.LabelOperand l] st)) ∧
    (lookupKey st.labels l = some A →
      process_jump_instruction first [Token.Instruction m, Token.LabelOperand l] st =
        process_jump_instruction first [Token.Instruction m, Token.NumericLiteral A] st)
    := by
  have hL : process_jump_instruction first
      [Token.Instruction m, Token.LabelOperand l] st =
      (match lookupKey st.labels l with
       | some address =>
         append_opcode (first ||| (((address &&& 0xF00) >>> 8) % 256))
           ((address &&& 0xFF) % 256) st
       | none => .ok (queue_incomplete_instruction
           [Token.Instruction m, Token.LabelOperand l] st)) := rfl
  have hR : process_jump_instruction first
      [Token.Instruction m, Token.NumericLiteral A] st =
      (append_opcode (first ||| (((A &&& 0xF00) >>> 8) % 256))
        ((A &&& 0x0FF) % 256) st) >>= pure := rfl
  constructor <;> intro h
  · rw [hL, h]
  · rw [hL, h, hR, bind_pure]

/-- A generator state that already binds label `l` to address 2 (for the C9
witness). -/
def c9State : CodeGenerator := ⟨0, [("l", 2)], List.replicate 4096 0, [], 0⟩

/-- Witness for `c9_forward_reference_resolution` at concrete states. -/
theorem c9_forward_reference_resolution_witness :
    process_jump_instruction 16 [Token.Instruction "JP", Token.LabelOperand "l"]
        CodeGenerator.new =
      .ok (queue_incomplete_instruction
        [Token.Instruction "JP", Token.LabelOperand "l"] CodeGenerator.new) ∧
    process_jump_instruction 16 [Token.Instruction "JP", Token.LabelOperand "l"]
        c9State =
      process_jump_instruction 16 [Token.Instruction "JP", Token.NumericLiteral 2]
        c9State :=
  ⟨(c9_forward_reference_resolution 16 CodeGenerator.new "JP" "l" 0).1 rfl,
   (c9_forward_reference_resolution 16 c9State "JP" "l" 2).2 rfl⟩

/-- C10.  `tokenize` is not total: a syntactically well-formed numeric
literal whose value exceeds `u32::MAX` (hex `$100000000` or decimal
`4294967296`) makes the unchecked `unwrap` of the integer conversion panic
instead of returning a `LexerError`. -/
theorem c10_tokenize_overflow_panics :
    tokenize ("  org $100000000\n".toList) =
      LexOutcome.panicked "number too large to fit in target type" ∧
    tokenize ("  LD V0, 4294967296\n".toList) =
      LexOutcome.panicked "number too large to fit in target type" :=
  ⟨rfl, rfl⟩

end Silica
